import Mathlib

/- Verification development for the manimts-backend job-lifecycle engine
   (src/main.py).  The data model, job store, execution runner, submitter and
   result projector are embedded as pure Lean functions.  Effectful operating
   system calls (temp-file creation, process spawn, waiting with a deadline,
   unlink) are driven by an explicit environment recording each call's
   outcome, so that every control path of the Python code becomes a
   computable branch of the model. -/

/-- Job status, from `class ExecutionStatus(str, Enum)` in src/main.py. -/
inductive ExecutionStatus where
  | running
  | success
  | error
deriving DecidableEq, Repr

/-- The string value of each status member (`"running"`, `"success"`,
`"error"` in src/main.py). -/
def statusValue : ExecutionStatus → String
  | .running => "running"
  | .success => "success"
  | .error => "error"

/-- The `result` dict stored on success: stdout, stderr, return code and the
artifact locator (`video_url`), from `execute_code_task` in src/main.py. -/
structure ResultData where
  stdout : String
  stderr : String
  return_code : Int
  video_url : String
deriving DecidableEq, Repr

/-- One entry of the `executions` dict: status plus the optional `result`
and `error_message` fields, from src/main.py. -/
structure Execution where
  status : ExecutionStatus
  result : Option ResultData
  error_message : Option String
deriving DecidableEq, Repr

/-- The in-memory execution registry `executions : Dict[str, dict]`,
modelled as a partial map from ids to entries. -/
def Store : Type := String → Option Execution

/-- The empty registry (server start). -/
def emptyStore : Store := fun _ => none

/-- A byte string (`bytes` in Python), as a list of byte values. -/
abbrev Bytes := List Nat

/-- Continuation-byte test for UTF-8 decoding: 0x80–0xBF. -/
def isCont (b : Nat) : Bool := 128 ≤ b && b ≤ 191

/-- Strict UTF-8 decoding of a byte list into characters, as performed by
Python's `bytes.decode()`: one- to four-byte sequences with the standard
range restrictions (no overlongs, no surrogates, max U+10FFFF); any invalid
byte yields `none` (a `UnicodeDecodeError`). -/
def utf8DecodeList : List Nat → Option (List Char)
  | [] => some []
  | b1 :: rest =>
    if b1 ≤ 127 then
      (utf8DecodeList rest).map (fun cs => Char.ofNat b1 :: cs)
    else if 194 ≤ b1 && b1 ≤ 223 then
      match rest with
      | b2 :: rest2 =>
        if isCont b2 then
          (utf8DecodeList rest2).map
            (fun cs => Char.ofNat ((b1 - 192) * 64 + (b2 - 128)) :: cs)
        else none
      | [] => none
    else if 224 ≤ b1 && b1 ≤ 239 then
      match rest with
      | b2 :: b3 :: rest3 =>
        if (if b1 = 224 then 160 ≤ b2 && b2 ≤ 191
            else if b1 = 237 then 128 ≤ b2 && b2 ≤ 159
            else isCont b2) && isCont b3 then
          (utf8DecodeList rest3).map
            (fun cs =>
              Char.ofNat ((b1 - 224) * 4096 + (b2 - 128) * 64 + (b3 - 128)) :: cs)
        else none
      | _ => none
    else if 240 ≤ b1 && b1 ≤ 244 then
      match rest with
      | b2 :: b3 :: b4 :: rest4 =>
        if (if b1 = 240 then 144 ≤ b2 && b2 ≤ 191
            else if b1 = 244 then 128 ≤ b2 && b2 ≤ 143
            else isCont b2) && isCont b3 && isCont b4 then
          (utf8DecodeList rest4).map
            (fun cs =>
              Char.ofNat ((b1 - 240) * 262144 + (b2 - 128) * 4096
                + (b3 - 128) * 64 + (b4 - 128)) :: cs)
        else none
      | _ => none
    else none

/-- The description `str(e)` of a `UnicodeDecodeError`, modelled as a fixed
message. -/
def decodeErrMsg : String := "utf-8 codec cannot decode byte: invalid data"

/-- Python `bytes.decode()`: either the decoded string or the decode
failure's description. -/
def pydecode (b : Bytes) : Except String String :=
  match utf8DecodeList b with
  | some cs => .ok (String.mk cs)
  | none => .error decodeErrMsg

/-- Python whitespace test used by `str.split()` with no argument: the
characters for which `str.isspace()` is true.  These are U+0009–U+000D
(tab, LF, VT, FF, CR), U+001C–U+001F (the file/group/record/unit
separators), U+0020 (space), U+0085 (NEL), U+00A0 (no-break space),
U+1680 (Ogham space mark), U+2000–U+200A (the typographic spaces),
U+2028 (line separator), U+2029 (paragraph separator), U+202F (narrow
no-break space), U+205F (medium mathematical space) and U+3000
(ideographic space) — the code points of Unicode category Zs, Zl or Zp or
of bidirectional class WS, B or S. -/
def isPySpace (c : Char) : Bool :=
  (9 ≤ c.toNat && c.toNat ≤ 13) ||
  (28 ≤ c.toNat && c.toNat ≤ 32) ||
  c.toNat == 133 ||
  c.toNat == 160 ||
  c.toNat == 5760 ||
  (8192 ≤ c.toNat && c.toNat ≤ 8202) ||
  c.toNat == 8232 ||
  c.toNat == 8233 ||
  c.toNat == 8239 ||
  c.toNat == 8287 ||
  c.toNat == 12288

/-- Worker for `str.split()`: scans the characters, accumulating the current
word reversed; whitespace runs separate words and produce no empty words. -/
def pysplitAux : List Char → List Char → List (List Char)
  | [], acc => if acc.isEmpty then [] else [acc.reverse]
  | c :: cs, acc =>
    if isPySpace c then
      if acc.isEmpty then pysplitAux cs [] else acc.reverse :: pysplitAux cs []
    else pysplitAux cs (c :: acc)

/-- Python `str.split()` with no argument: split on runs of whitespace,
discarding empty pieces.  Used by `execute_code_task` to turn the formatted
command string into an argument vector. -/
def pysplit (s : String) : List String :=
  (pysplitAux s.data []).map String.mk

example : pysplit "manim render /tmp/a.py MainScene" =
    ["manim", "render", "/tmp/a.py", "MainScene"] := by decide

example : pysplit "a\u00A0b" = ["a", "b"] := by decide

example : pysplit "a\u001Cb" = ["a", "b"] := by decide

example : pysplit "a\u0085b" = ["a", "b"] := by decide

example : pysplit "a\u2003b" = ["a", "b"] := by decide

example : utf8DecodeList [255] = none := by decide

example : pydecode [104, 105] = .ok "hi" := rfl

/-- `os.path.basename` (POSIX): the part of the path after the last slash. -/
def basename (p : String) : String :=
  String.mk ((p.data.reverse.takeWhile (fun c => c ≠ '/')).reverse)

/-- Index of the last dot of a character list, if any. -/
def lastDotIdx (cs : List Char) : Option Nat :=
  match cs.reverse.findIdx? (fun c => c = '.') with
  | none => none
  | some k => some (cs.length - 1 - k)

/-- The root component of `os.path.splitext`: everything before the last
dot, except that a name whose characters before that dot are all dots
(such as `.bashrc`) has no extension. -/
def splitextRoot (s : String) : String :=
  match lastDotIdx s.data with
  | none => s
  | some i =>
      if (s.data.take i).all (fun c => c = '.') then s
      else String.mk (s.data.take i)

/-- `os.path.splitext(os.path.basename(temp_path))[0]` from
`execute_code_task`: the temp file's base name without its extension. -/
def base_name (tempPath : String) : String := splitextRoot (basename tempPath)

example : base_name "/tmp/tmpab12.py" = "tmpab12" := by decide

/-- The relative artifact path
`os.path.join("videos", base_name, "1080p60", "MainScene.mp4")`. -/
def video_path (tempPath : String) : String :=
  "videos/" ++ base_name tempPath ++ "/1080p60/MainScene.mp4"

/-- The artifact locator recorded in the result:
`f"http:..manimts-backend.onrender.com/media/{video_path}"`. -/
def video_url (tempPath : String) : String :=
  "http://manimts-backend.onrender.com/media/" ++ video_path tempPath

/-- The formatted command string
`f"manim render {temp_path} MainScene --media_dir {MEDIA_DIR}"`. -/
def mkCommand (tempPath mediaDir : String) : String :=
  "manim render " ++ tempPath ++ " MainScene --media_dir " ++ mediaDir

/-- `command.split()`: the argument vector passed to
`asyncio.create_subprocess_exec`. -/
def command_parts (tempPath mediaDir : String) : List String :=
  pysplit (mkCommand tempPath mediaDir)

/-- The timeout message written by the `asyncio.TimeoutError` handler. -/
def timeoutMsg : String := "Execution timed out after 300 seconds"

/-- A fresh registry entry as created by `start_execution`:
status `running`, no result, no error message. -/
def freshExecution : Execution :=
  { status := .running, result := none, error_message := none }

/-- The dict assignment `executions[execution_id] = {...}` in
`start_execution`: maps the id to a fresh running entry, silently replacing
any entry already stored under that id. -/
def storeCreate (st : Store) (id : String) : Store :=
  fun k => if k = id then some freshExecution else st k

/-- `executions[execution_id]["status"] = s`: update the status field of the
entry under `id` (the id is always present when the runner writes). -/
def updStatus (st : Store) (id : String) (s : ExecutionStatus) : Store :=
  fun k => if k = id then (st k).map (fun e => { e with status := s }) else st k

/-- `executions[execution_id]["result"] = r`. -/
def updResult (st : Store) (id : String) (r : ResultData) : Store :=
  fun k => if k = id then (st k).map (fun e => { e with result := some r }) else st k

/-- `executions[execution_id]["error_message"] = m`. -/
def updError (st : Store) (id : String) (m : String) : Store :=
  fun k =>
    if k = id then (st k).map (fun e => { e with error_message := some m }) else st k

/-- Outcome of materializing the payload via `tempfile.NamedTemporaryFile`
plus `temp_file.write(code)`:
either the constructor itself raises (no file on disk), or the write raises
after the file was created (the file stays on disk, `delete=False`), or both
steps succeed and yield the temp path. -/
inductive MaterializeOutcome where
  | failBeforeCreate (msg : String)
  | failAfterCreate (path : String) (msg : String)
  | ok (path : String)
deriving DecidableEq, Repr

/-- Outcome of `asyncio.create_subprocess_exec`. -/
inductive SpawnOutcome where
  | fail (msg : String)
  | ok
deriving DecidableEq, Repr

/-- Outcome of `asyncio.wait_for(process.communicate(), timeout=300)`:
either the child completes within the deadline with captured stdout/stderr
bytes and its exit code, or the wait raises `asyncio.TimeoutError` (in which
case the child has not been reaped and `process.returncode is None`). -/
inductive WaitOutcome where
  | completed (stdoutBytes stderrBytes : Bytes) (returncode : Int)
  | timedOut
deriving DecidableEq, Repr

/-- Environment of one runner invocation: the outcome of every effectful
operating-system call `execute_code_task` performs, plus whether the final
`os.unlink(temp_path)` succeeds. -/
structure Env where
  materialize : MaterializeOutcome
  spawn : SpawnOutcome
  wait : WaitOutcome
  unlinkOk : Bool
  unlinkErrMsg : String

/-- Observable events of one runner invocation, in program order. -/
inductive Event where
  | spawned (argv : List String)
  | terminated
  | waitedChild
  | statusWrite (s : ExecutionStatus)
  | resultWrite (r : ResultData)
  | errorWrite (m : String)
  | unlinked (path : String)
deriving DecidableEq, Repr

/-- Result of one runner invocation: the registry after the run, the event
trace, and whether the materialized temp file is still on disk. -/
structure RunResult where
  store : Store
  trace : List Event
  tempExists : Bool

/-- Outcome of the body of the inner `try` of `execute_code_task` (spawn,
wait, decode, terminal write): either it finishes normally or an exception
with message `msg` is propagating when the `finally` block runs. -/
inductive InnerOutcome where
  | normal (st : Store) (tr : List Event)
  | exc (msg : String) (st : Store) (tr : List Event)

/-- The body of the inner `try` of `execute_code_task`, after the temp file
exists at `path`: spawn the renderer, await completion with the deadline,
then either record success (status then result) or handle the timeout
(terminate, await, status then error message).  A spawn failure or a
`UnicodeDecodeError` from `stdout.decode()` / `stderr.decode()` propagates
as an exception. -/
def innerBody (env : Env) (mediaDir execution_id : String) (path : String)
    (st : Store) : InnerOutcome :=
  match env.spawn with
  | .fail msg => .exc msg st []
  | .ok =>
    let argv := command_parts path mediaDir
    match env.wait with
    | .timedOut =>
        .normal (updError (updStatus st execution_id .error) execution_id timeoutMsg)
          ([.spawned argv, .terminated, .waitedChild,
            .statusWrite .error, .errorWrite timeoutMsg])
    | .completed outB errB rc =>
      match pydecode outB with
      | .error msg => .exc msg st [.spawned argv]
      | .ok o =>
        match pydecode errB with
        | .error msg => .exc msg st [.spawned argv]
        | .ok e =>
          let r : ResultData :=
            { stdout := o, stderr := e, return_code := rc,
              video_url := video_url path }
          .normal (updResult (updStatus st execution_id .success) execution_id r)
            ([.spawned argv, .statusWrite .success, .resultWrite r])

/-- The `finally: os.unlink(temp_path)` of the inner `try`, followed by the
outer `except Exception` handler of `execute_code_task`.  If the inner body
ended normally and unlink succeeds, the run is over.  If unlink raises (on
either path) its exception replaces any pending one and reaches the outer
handler; a pending inner exception with a successful unlink also reaches the
outer handler.  The outer handler writes status `error` and then the
exception's message, whatever the entry already holds. -/
def finishAfterInner (env : Env) (execution_id path : String)
    (o : InnerOutcome) : RunResult :=
  match o with
  | .normal st tr =>
    if env.unlinkOk then
      { store := st, trace := tr ++ [.unlinked path], tempExists := false }
    else
      { store := updError (updStatus st execution_id .error) execution_id
          env.unlinkErrMsg,
        trace := tr ++ [.statusWrite .error, .errorWrite env.unlinkErrMsg],
        tempExists := true }
  | .exc msg st tr =>
    if env.unlinkOk then
      { store := updError (updStatus st execution_id .error) execution_id msg,
        trace := tr ++ [.unlinked path, .statusWrite .error, .errorWrite msg],
        tempExists := false }
    else
      { store := updError (updStatus st execution_id .error) execution_id
          env.unlinkErrMsg,
        trace := tr ++ [.statusWrite .error, .errorWrite env.unlinkErrMsg],
        tempExists := true }

/-- The runner `execute_code_task(execution_id, code)` of src/main.py, with
each effectful call's outcome supplied by `env` and `MEDIA_DIR` by
`mediaDir`.  A failure of `tempfile.NamedTemporaryFile` itself reaches the
outer handler with no file on disk; a failure of `temp_file.write` reaches
the outer handler with the file still on disk (the `try`/`finally` holding
the `os.unlink` is entered only after the `with` block completes). -/
def execute_code_task (env : Env) (mediaDir execution_id : String)
    (_code : String) (st : Store) : RunResult :=
  match env.materialize with
  | .failBeforeCreate msg =>
    { store := updError (updStatus st execution_id .error) execution_id msg,
      trace := [.statusWrite .error, .errorWrite msg],
      tempExists := false }
  | .failAfterCreate _ msg =>
    { store := updError (updStatus st execution_id .error) execution_id msg,
      trace := [.statusWrite .error, .errorWrite msg],
      tempExists := true }
  | .ok path =>
    finishAfterInner env execution_id path
      (innerBody env mediaDir execution_id path st)

/-- The submitter `start_execution` of src/main.py: decode the raw request
body (`code = code.decode()`), then allocate the id and register a fresh
running entry.  A decode failure raises before the registry assignment, so
the registry is returned unchanged and no id is produced.  (Scheduling the
runner task is represented by the caller invoking `execute_code_task`.) -/
def start_execution (st : Store) (body : Bytes) (newId : String) :
    Except String String × Store :=
  match pydecode body with
  | .error msg => (.error msg, st)
  | .ok _ => (.ok newId, storeCreate st newId)

/-- Client-visible failures of the projector endpoints. -/
inductive HttpError where
  | notFound (detail : String)
  | badRequest (detail : String)
  | internal
deriving DecidableEq, Repr

/-- The projector `get_response` of src/main.py: unknown id fails with 404;
a job whose status is not `success` fails with 400 and a message embedding
the current status; otherwise the stored result is returned verbatim (a
success entry with no stored result would crash constructing the response,
modelled as an internal failure). -/
def get_response (st : Store) (execution_id : String) :
    Except HttpError ResultData :=
  match st execution_id with
  | none => .error (.notFound "Execution not found")
  | some e =>
    if e.status ≠ .success then
      .error (.badRequest
        ("Execution is not completed successfully. Current status: "
          ++ statusValue e.status))
    else
      match e.result with
      | some r => .ok r
      | none => .error .internal

/-- The sequence of status values written to the registry during a run, in
program order. -/
def statusWrites (tr : List Event) : List ExecutionStatus :=
  tr.filterMap (fun e =>
    match e with
    | .statusWrite s => some s
    | _ => none)

/-- A concrete environment in which everything succeeds except the final
`os.unlink`, which raises after the success transition has been written. -/
def envUnlinkFail : Env :=
  { materialize := .ok "/tmp/tmpjob.py", spawn := .ok,
    wait := .completed [] [] 0, unlinkOk := false,
    unlinkErrMsg := "No such file or directory: /tmp/tmpjob.py" }

/-- A concrete registry holding exactly the fresh entry for job `"job1"`. -/
def st1 : Store := storeCreate emptyStore "job1"

/-- The result recorded by a run of `envUnlinkFail` before unlink raises. -/
def resUnlinkFail : ResultData :=
  { stdout := "", stderr := "", return_code := 0,
    video_url := "http://manimts-backend.onrender.com/media/videos/tmpjob/1080p60/MainScene.mp4" }

/-- A concrete environment in which every effectful call succeeds: the
child completes within the deadline with stdout bytes `"hi"`, stderr bytes
`"o"` and a non-zero exit code. -/
def envHappy : Env :=
  { materialize := .ok "/tmp/tmpjob.py", spawn := .ok,
    wait := .completed [104, 105] [111] 2, unlinkOk := true,
    unlinkErrMsg := "" }

/-- A concrete environment in which the child completes within the
deadline, but its captured stdout bytes are not valid UTF-8. -/
def envBadStdout : Env :=
  { materialize := .ok "/tmp/tmpjob.py", spawn := .ok,
    wait := .completed [255] [] 0, unlinkOk := true, unlinkErrMsg := "" }

/-- A concrete environment in which the wall-clock deadline is exceeded. -/
def envTimeout : Env :=
  { materialize := .ok "/tmp/tmpjob.py", spawn := .ok,
    wait := .timedOut, unlinkOk := true, unlinkErrMsg := "" }

/-- A concrete environment in which `temp_file.write(code)` raises after
`tempfile.NamedTemporaryFile` has already created the file on disk. -/
def envWriteFail : Env :=
  { materialize := .failAfterCreate "/tmp/tmpjob.py" "No space left on device",
    spawn := .ok, wait := .timedOut, unlinkOk := true, unlinkErrMsg := "" }

/-- A concrete registry in which job `"job1"` has already completed
successfully with result `resUnlinkFail`. -/
def stDone : Store :=
  updResult (updStatus st1 "job1" .success) "job1" resUnlinkFail

theorem data_append (a b : String) : (a ++ b).data = a.data ++ b.data := rfl

theorem mk_data (s : String) : String.mk s.data = s := rfl

theorem storeCreate_self (st : Store) (id : String) :
    storeCreate st id id = some freshExecution := by
  simp [storeCreate]

theorem storeCreate_other (st : Store) (id k : String) (h : k ≠ id) :
    storeCreate st id k = st k := by
  simp [storeCreate, h]

theorem pysplitAux_word (w : List Char) (hw : ∀ c ∈ w, isPySpace c = false) :
    ∀ rest acc, pysplitAux (w ++ rest) acc = pysplitAux rest (w.reverse ++ acc) := by
  induction w with
  | nil => intro rest acc; simp
  | cons c w ih =>
    intro rest acc
    have hc : isPySpace c = false := hw c (by simp)
    have hw' : ∀ d ∈ w, isPySpace d = false := fun d hd => hw d (by simp [hd])
    have h1 : pysplitAux (c :: (w ++ rest)) acc = pysplitAux (w ++ rest) (c :: acc) := by
      simp [pysplitAux, hc]
    rw [List.cons_append, h1, ih hw']
    simp [List.append_assoc]

theorem pysplitAux_space (rest acc : List Char) :
    pysplitAux (' ' :: rest) acc =
      if acc.isEmpty then pysplitAux rest []
      else acc.reverse :: pysplitAux rest [] := rfl

theorem pysplit_word_space (w rest : List Char)
    (hw : ∀ c ∈ w, isPySpace c = false) (hne : w ≠ []) :
    pysplitAux (w ++ ' ' :: rest) [] = w :: pysplitAux rest [] := by
  rw [pysplitAux_word w hw (' ' :: rest) [], List.append_nil, pysplitAux_space]
  simp [List.isEmpty_eq_false_iff_exists_mem, hne]

theorem pysplit_last_word (w : List Char)
    (hw : ∀ c ∈ w, isPySpace c = false) (hne : w ≠ []) :
    pysplitAux w [] = [w] := by
  have h := pysplitAux_word w hw [] []
  rw [List.append_nil, List.append_nil] at h
  rw [h]
  simp [pysplitAux, List.isEmpty_eq_false_iff_exists_mem, hne]

theorem mkCommand_data (p m : String) :
    (mkCommand p m).data =
      "manim".data ++ ' ' :: ("render".data ++ ' ' :: (p.data ++ ' ' ::
        ("MainScene".data ++ ' ' :: ("--media_dir".data ++ ' ' :: m.data)))) := by
  have e1 : ("manim render ").data
      = "manim".data ++ ' ' :: ("render".data ++ [' ']) := by decide
  have e2 : (" MainScene --media_dir ").data
      = ' ' :: ("MainScene".data ++ ' ' :: ("--media_dir".data ++ [' '])) := by decide
  show ("manim render " ++ p ++ " MainScene --media_dir " ++ m).data = _
  rw [data_append, data_append, data_append, e1, e2]
  simp [List.append_assoc]

example :
    statusWrites (execute_code_task envUnlinkFail "/app/media" "job1" "c" st1).trace
      = [.success, .error] := by decide

example :
    (execute_code_task envUnlinkFail "/app/media" "job1" "c" st1).store "job1"
      = some { status := .error, result := some resUnlinkFail,
               error_message := some "No such file or directory: /tmp/tmpjob.py" } := by
  decide



/-- Claim C1 is refuted as stated: there is an execution path of the runner
on which a job already marked `success` is re-marked `error`.  Concretely,
when the run succeeds but the final `os.unlink` raises, the outer
`except Exception` handler overwrites the terminal status: the status-write
sequence is `[success, error]` and the job ends up `error`. -/
theorem C1_counterexample :
    statusWrites (execute_code_task envUnlinkFail "/app/media" "job1" "c" st1).trace
        = [.success, .error] ∧
    ((execute_code_task envUnlinkFail "/app/media" "job1" "c" st1).store "job1").map
        Execution.status = some .error := by
  constructor <;> decide

/-- Claim C1 (amended): every job starts `running` when registered, and on
every runner execution in which the temp-file unlink succeeds the runner
writes exactly one status, and that status is terminal (`success` or
`error`); only a failing unlink after the `success` write can re-mark a
job. -/
theorem C1_amended_status_monotone (env : Env) (md id c : String)
    (st st0 : Store) (hu : env.unlinkOk = true) :
    (storeCreate st0 id) id = some freshExecution ∧
    (statusWrites (execute_code_task env md id c st).trace = [.success] ∨
     statusWrites (execute_code_task env md id c st).trace = [.error]) := by
  refine ⟨storeCreate_self st0 id, ?_⟩
  rcases env with ⟨mat, sp, w, u, um⟩
  have hu' : u = true := hu
  subst hu'
  cases mat with
  | failBeforeCreate msg =>
      right; simp [execute_code_task, statusWrites]
  | failAfterCreate path msg =>
      right; simp [execute_code_task, statusWrites]
  | ok path =>
      cases sp with
      | fail msg =>
          right
          simp [execute_code_task, innerBody, finishAfterInner, statusWrites]
      | ok =>
          cases w with
          | timedOut =>
              right
              simp [execute_code_task, innerBody, finishAfterInner, statusWrites]
          | completed outB errB rc =>
              cases ho : pydecode outB with
              | error msg =>
                  right
                  simp [execute_code_task, innerBody, finishAfterInner, ho,
                    statusWrites]
              | ok o =>
                  cases he : pydecode errB with
                  | error msg =>
                      right
                      simp [execute_code_task, innerBody, finishAfterInner, ho, he,
                        statusWrites]
                  | ok e =>
                      left
                      simp [execute_code_task, innerBody, finishAfterInner, ho, he,
                        statusWrites]

/-- Witness for the amended claim C1, at the all-success environment. -/
theorem C1_amended_status_monotone_witness :
    (storeCreate emptyStore "job1") "job1" = some freshExecution ∧
    (statusWrites (execute_code_task envHappy "/app/media" "job1" "c" st1).trace
        = [.success] ∨
     statusWrites (execute_code_task envHappy "/app/media" "job1" "c" st1).trace
        = [.error]) :=
  C1_amended_status_monotone envHappy "/app/media" "job1" "c" st1 emptyStore rfl

/-- Claim C2 is refuted as stated: a job whose child completes within the
deadline does not always transition to `success`.  Concretely, when the
captured stdout bytes are `[255]` (not UTF-8), the job ends `error` with the
decode failure's description, despite the in-deadline completion. -/
theorem C2_counterexample :
    envBadStdout.wait = .completed [255] [] 0 ∧
    (execute_code_task envBadStdout "/app/media" "job1" "c" st1).store "job1"
      = some { status := .error, result := none,
               error_message := some decodeErrMsg } := by
  constructor <;> decide

/-- Claim C2 (amended): for every job whose child completes within the
deadline, whose captured stdout and stderr bytes decode as UTF-8, and whose
temp-file unlink succeeds, the runner transitions the job to `success` with
`result = (stdout, stderr, return_code, video_url)` — for every exit code,
zero or not. -/
theorem C2_amended_completion_success (env : Env) (md id c path : String)
    (st : Store) (outB errB : Bytes) (rc : Int) (o e : String)
    (hst : st id = some freshExecution)
    (hmat : env.materialize = .ok path)
    (hsp : env.spawn = .ok)
    (hw : env.wait = .completed outB errB rc)
    (ho : pydecode outB = .ok o)
    (he : pydecode errB = .ok e)
    (hu : env.unlinkOk = true) :
    (execute_code_task env md id c st).store id
      = some { status := .success,
               result := some { stdout := o, stderr := e, return_code := rc,
                                video_url := video_url path },
               error_message := none } := by
  simp [execute_code_task, hmat, innerBody, hsp, hw, ho, he, finishAfterInner,
    hu, updResult, updStatus, hst, freshExecution]

/-- Witness for the amended claim C2, with a non-zero exit code. -/
theorem C2_amended_completion_success_witness :
    (execute_code_task envHappy "/app/media" "job1" "c" st1).store "job1"
      = some { status := .success,
               result := some { stdout := "hi", stderr := "o", return_code := 2,
                                video_url := video_url "/tmp/tmpjob.py" },
               error_message := none } :=
  C2_amended_completion_success envHappy "/app/media" "job1" "c" "/tmp/tmpjob.py"
    st1 [104, 105] [111] 2 "hi" "o" (by decide) rfl rfl rfl rfl rfl rfl

/-- Claim C3: on deadline exceedance the runner terminates the child, awaits
its exit, and only then writes the terminal `error` with the timeout
message: the job's final entry is `error` with the timeout message, and the
event trace shows `terminated` then `waitedChild` strictly before the
status write, so the job is never resolved with a terminated-but-unreaped
child. -/
theorem C3_timeout_error_after_reap (env : Env) (md id c path : String)
    (st : Store)
    (hst : st id = some freshExecution)
    (hmat : env.materialize = .ok path)
    (hsp : env.spawn = .ok)
    (hw : env.wait = .timedOut)
    (hu : env.unlinkOk = true) :
    (execute_code_task env md id c st).store id
        = some { status := .error, result := none,
                 error_message := some timeoutMsg } ∧
    (execute_code_task env md id c st).trace
        = [.spawned (command_parts path md), .terminated, .waitedChild,
           .statusWrite .error, .errorWrite timeoutMsg, .unlinked path] := by
  constructor <;>
    simp [execute_code_task, hmat, innerBody, hsp, hw, finishAfterInner, hu,
      updError, updStatus, hst, freshExecution]

/-- Witness for claim C3, at the concrete timeout environment. -/
theorem C3_timeout_error_after_reap_witness :
    (execute_code_task envTimeout "/app/media" "job1" "c" st1).store "job1"
        = some { status := .error, result := none,
                 error_message := some timeoutMsg } ∧
    (execute_code_task envTimeout "/app/media" "job1" "c" st1).trace
        = [.spawned (command_parts "/tmp/tmpjob.py" "/app/media"), .terminated,
           .waitedChild, .statusWrite .error, .errorWrite timeoutMsg,
           .unlinked "/tmp/tmpjob.py"] :=
  C3_timeout_error_after_reap envTimeout "/app/media" "job1" "c" "/tmp/tmpjob.py"
    st1 (by decide) rfl rfl rfl rfl

/-- Claim C4 names a cleanup guarantee the code does not provide: when
`temp_file.write(code)` raises after `tempfile.NamedTemporaryFile` has
created the file (the claim's "failures occurring during payload
materialization"), the `try`/`finally` holding `os.unlink` is never entered,
so the temp file is still on disk while the job is already terminal
(`error`). -/
theorem C4_write_failure_leaks_temp_file :
    (execute_code_task envWriteFail "/app/media" "job1" "c" st1).tempExists = true ∧
    (execute_code_task envWriteFail "/app/media" "job1" "c" st1).store "job1"
      = some { status := .error, result := none,
               error_message := some "No space left on device" } := by
  constructor <;> decide

/-- Claim C5: for an existing job, `get_response` fails with the bad-request
error embedding the current status whenever the status is `running` or
`error`, and (when a result is stored) returns the stored result exactly
when the status is `success`. -/
theorem C5_result_gated_by_success (st : Store) (id : String) (e : Execution)
    (h : st id = some e) :
    ((e.status = .running ∨ e.status = .error) →
      get_response st id = .error (.badRequest
        ("Execution is not completed successfully. Current status: "
          ++ statusValue e.status))) ∧
    (∀ r, e.result = some r →
      (get_response st id = .ok r ↔ e.status = .success)) := by
  constructor
  · rintro (hs | hs) <;> simp [get_response, h, hs, statusValue]
  · intro r hr
    constructor
    · intro hok
      by_contra hne
      simp [get_response, h, hne] at hok
    · intro hs
      simp [get_response, h, hs, hr]

/-- Witness for claim C5, reading back a completed job's stored result. -/
theorem C5_result_gated_by_success_witness :
    get_response stDone "job1" = .ok resUnlinkFail := by
  have h := C5_result_gated_by_success stDone "job1"
    { status := .success, result := some resUnlinkFail, error_message := none }
    (by decide)
  exact (h.2 resUnlinkFail rfl).mpr rfl

/-- Claim C6 is refuted as stated: the argument vector is built by
whitespace-splitting a formatted command string, so a media root containing
a space does not arrive as a single intact argument — it is split into two
tokens. -/
theorem C6_counterexample :
    command_parts "/tmp/tmpjob.py" "/app/my dir/media"
      = ["manim", "render", "/tmp/tmpjob.py", "MainScene", "--media_dir",
         "/app/my", "dir/media"] ∧
    command_parts "/tmp/tmpjob.py" "/app/my dir/media"
      ≠ ["manim", "render", "/tmp/tmpjob.py", "MainScene", "--media_dir",
         "/app/my dir/media"] := by
  constructor <;> decide

/-- Claim C6 (amended): provided the input path and the media root are
nonempty and contain no whitespace, the renderer is spawned with exactly
the argument vector
`[manim, render, inputPath, MainScene, --media_dir, mediaRoot]`,
with the path, the entry symbol and the media root each a single intact
argument. -/
theorem C6_amended_argv_intact (p m : String) (hp : p.data ≠ []) (hm : m.data ≠ [])
    (hps : ∀ c ∈ p.data, isPySpace c = false)
    (hms : ∀ c ∈ m.data, isPySpace c = false) :
    command_parts p m = ["manim", "render", p, "MainScene", "--media_dir", m] := by
  have h1 : ∀ c ∈ "manim".data, isPySpace c = false := by decide
  have h2 : ∀ c ∈ "render".data, isPySpace c = false := by decide
  have h3 : ∀ c ∈ "MainScene".data, isPySpace c = false := by decide
  have h4 : ∀ c ∈ "--media_dir".data, isPySpace c = false := by decide
  unfold command_parts pysplit
  rw [mkCommand_data]
  rw [pysplit_word_space _ _ h1 (by decide)]
  rw [pysplit_word_space _ _ h2 (by decide)]
  rw [pysplit_word_space _ _ hps hp]
  rw [pysplit_word_space _ _ h3 (by decide)]
  rw [pysplit_word_space _ _ h4 (by decide)]
  rw [pysplit_last_word _ hms hm]
  simp [mk_data]

/-- Witness for the amended claim C6, at whitespace-free concrete paths. -/
theorem C6_amended_argv_intact_witness :
    command_parts "/tmp/tmpjob.py" "/app/media"
      = ["manim", "render", "/tmp/tmpjob.py", "MainScene", "--media_dir",
         "/app/media"] :=
  C6_amended_argv_intact "/tmp/tmpjob.py" "/app/media" (by decide) (by decide)
    (by decide) (by decide)

/-- Claim C7 is refuted as stated: on the path where the run succeeds and
the final `os.unlink` then raises, the outer handler re-marks the job
`error` and writes `error_message` while `result` is still stored, so the
final entry has status `error` with both `result` and `error_message`
present — the fields are neither mutually exclusive nor gated by the
matching terminal status on that path. -/
theorem C7_counterexample :
    ((execute_code_task envUnlinkFail "/app/media" "job1" "c" st1).store "job1").map
        (fun e => (e.status, e.result.isSome, e.error_message.isSome))
      = some (.error, true, true) := by
  decide

/-- Claim C7 (amended): for a job registered fresh, after any runner
execution in which the temp-file unlink succeeds, the final entry satisfies
the gating invariant: `result` is present iff the status is `success` and
`error_message` is present iff the status is `error`. -/
theorem C7_amended_result_error_exclusive (env : Env) (md id c : String)
    (st : Store) (hst : st id = some freshExecution) (hu : env.unlinkOk = true) :
    ∃ e, (execute_code_task env md id c st).store id = some e ∧
      (e.result.isSome ↔ e.status = .success) ∧
      (e.error_message.isSome ↔ e.status = .error) := by
  rcases env with ⟨mat, sp, w, u, um⟩
  have hu' : u = true := hu
  subst hu'
  cases mat with
  | failBeforeCreate msg =>
      refine ⟨{ status := .error, result := none, error_message := some msg },
        ?_, by simp, by simp⟩
      simp [execute_code_task, updError, updStatus, hst, freshExecution]
  | failAfterCreate path msg =>
      refine ⟨{ status := .error, result := none, error_message := some msg },
        ?_, by simp, by simp⟩
      simp [execute_code_task, updError, updStatus, hst, freshExecution]
  | ok path =>
      cases sp with
      | fail msg =>
          refine ⟨{ status := .error, result := none, error_message := some msg },
            ?_, by simp, by simp⟩
          simp [execute_code_task, innerBody, finishAfterInner, updError,
            updStatus, hst, freshExecution]
      | ok =>
          cases w with
          | timedOut =>
              refine ⟨{ status := .error, result := none,
                        error_message := some timeoutMsg }, ?_, by simp, by simp⟩
              simp [execute_code_task, innerBody, finishAfterInner, updError,
                updStatus, hst, freshExecution]
          | completed outB errB rc =>
              cases ho : pydecode outB with
              | error msg =>
                  refine ⟨{ status := .error, result := none,
                            error_message := some msg }, ?_, by simp, by simp⟩
                  simp [execute_code_task, innerBody, finishAfterInner, ho,
                    updError, updStatus, hst, freshExecution]
              | ok o =>
                  cases he : pydecode errB with
                  | error msg =>
                      refine ⟨{ status := .error, result := none,
                                error_message := some msg }, ?_, by simp, by simp⟩
                      simp [execute_code_task, innerBody, finishAfterInner, ho,
                        he, updError, updStatus, hst, freshExecution]
                  | ok e =>
                      refine ⟨{ status := .success,
                                result := some ⟨o, e, rc, video_url path⟩,
                                error_message := none }, ?_, by simp, by simp⟩
                      simp [execute_code_task, innerBody, finishAfterInner, ho,
                        he, updResult, updStatus, hst, freshExecution]

/-- Witness for the amended claim C7, at the all-success environment. -/
theorem C7_amended_result_error_exclusive_witness :
    ∃ e, (execute_code_task envHappy "/app/media" "job1" "c" st1).store "job1"
        = some e ∧
      (e.result.isSome ↔ e.status = .success) ∧
      (e.error_message.isSome ↔ e.status = .error) :=
  C7_amended_result_error_exclusive envHappy "/app/media" "job1" "c" st1
    (by decide) rfl

/-- Claim C8 is refuted as stated: submission registers the job with a bare
dict assignment, so an id that is already present is silently overwritten —
here a job already completed with a stored result is replaced by a fresh
running entry, and the submission still succeeds instead of failing with an
already-exists error. -/
theorem C8_counterexample :
    stDone "job1" = some { status := .success, result := some resUnlinkFail,
                           error_message := none } ∧
    (start_execution stDone [104, 105] "job1").1 = .ok "job1" ∧
    (start_execution stDone [104, 105] "job1").2 "job1" = some freshExecution := by
  refine ⟨by decide, rfl, by decide⟩

/-- Claim C8 (amended): registration maps the id to a fresh `running` entry
unconditionally — a new id is registered, a duplicate id is silently
overwritten (no already-exists failure), and every other id is untouched. -/
theorem C8_amended_create_overwrites (st : Store) (body : Bytes) (id : String)
    (s : String) (hd : pydecode body = .ok s) :
    (start_execution st body id).1 = .ok id ∧
    (start_execution st body id).2 id = some freshExecution ∧
    ∀ k, k ≠ id → (start_execution st body id).2 k = st k := by
  refine ⟨by simp [start_execution, hd], by simp [start_execution, hd, storeCreate],
    ?_⟩
  intro k hk
  simp [start_execution, hd, storeCreate, hk]

/-- Witness for the amended claim C8, overwriting a completed job. -/
theorem C8_amended_create_overwrites_witness :
    (start_execution stDone [104, 105] "job1").1 = .ok "job1" ∧
    (start_execution stDone [104, 105] "job1").2 "job1" = some freshExecution ∧
    ∀ k, k ≠ "job1" → (start_execution stDone [104, 105] "job1").2 k = stDone k :=
  C8_amended_create_overwrites stDone [104, 105] "job1" "hi" rfl

/-- Claim C9: a submission whose payload bytes are not valid UTF-8 fails
before any job is registered — the decode error propagates, no id is
produced, and the registry is returned exactly unchanged. -/
theorem C9_invalid_payload_not_registered (st : Store) (body : Bytes)
    (newId msg : String) (hd : pydecode body = .error msg) :
    start_execution st body newId = (.error msg, st) := by
  simp [start_execution, hd]

/-- Witness for claim C9, at the invalid byte sequence `[255]`. -/
theorem C9_invalid_payload_not_registered_witness :
    start_execution emptyStore [255] "job1" = (.error decodeErrMsg, emptyStore) :=
  C9_invalid_payload_not_registered emptyStore [255] "job1" decodeErrMsg rfl

/-- Claim C10: when the child completes within the deadline but its captured
stdout (or stderr) bytes are not valid UTF-8, the decode failure propagates
past the success write, the job transitions to `error` with the decode
failure's description, and the temp file is still removed. -/
theorem C10_decode_failure_transitions_error (env : Env) (md id c path : String)
    (st : Store) (outB errB : Bytes) (rc : Int) (msg : String)
    (hst : st id = some freshExecution)
    (hmat : env.materialize = .ok path)
    (hsp : env.spawn = .ok)
    (hw : env.wait = .completed outB errB rc)
    (hd : pydecode outB = .error msg ∨
          ∃ o, pydecode outB = .ok o ∧ pydecode errB = .error msg)
    (hu : env.unlinkOk = true) :
    (execute_code_task env md id c st).store id
        = some { status := .error, result := none, error_message := some msg } ∧
    (execute_code_task env md id c st).tempExists = false := by
  rcases hd with hd | ⟨o, ho, hd⟩
  · constructor <;>
      simp [execute_code_task, hmat, innerBody, hsp, hw, hd, finishAfterInner,
        hu, updError, updStatus, hst, freshExecution]
  · constructor <;>
      simp [execute_code_task, hmat, innerBody, hsp, hw, ho, hd, finishAfterInner,
        hu, updError, updStatus, hst, freshExecution]

/-- Witness for claim C10, with stdout bytes `[255]`. -/
theorem C10_decode_failure_transitions_error_witness :
    (execute_code_task envBadStdout "/app/media" "job1" "c" st1).store "job1"
        = some { status := .error, result := none,
                 error_message := some decodeErrMsg } ∧
    (execute_code_task envBadStdout "/app/media" "job1" "c" st1).tempExists
        = false :=
  C10_decode_failure_transitions_error envBadStdout "/app/media" "job1" "c"
    "/tmp/tmpjob.py" st1 [255] [] 0 decodeErrMsg (by decide) rfl rfl rfl
    (Or.inl rfl) rfl
